import Mathlib

/-!
Verification of the github_backup repository (src/src) against its
natural-language specification.

The Python source is shallowly embedded: each relevant function is
translated into an executable Lean definition over explicit state.
Strings are modelled as `List Char` (byte-faithful for the ASCII data these
functions manipulate) or as Lean `String` where convenient.
-/

/-! ## Generic string/list utilities mirroring Python primitives -/

/-- Plain lexicographic (dictionary) order on character lists, comparing
code points; a strict prefix is smaller.  This is ordinary string order,
as used by S3 key listings and Python string comparison. -/
def lexLtB : List Char → List Char → Bool
  | [], [] => false
  | [], _ :: _ => true
  | _ :: _, [] => false
  | a :: as, b :: bs => if a = b then lexLtB as bs else decide (a < b)

/-- `startsWithL pat s` : does `s` start with `pat`? -/
def startsWithL : List Char → List Char → Bool
  | [], _ => true
  | _ :: _, [] => false
  | a :: as, b :: bs => a = b && startsWithL as bs

/-- Python's `sub in s` substring test. -/
def hasSub (sub : List Char) : List Char → Bool
  | [] => sub.isEmpty
  | c :: rest => startsWithL sub (c :: rest) || hasSub sub rest

/-- Fuel-driven worker for `pySplit`; the fuel is an upper bound on the
number of characters consumed, each step consumes at least one. -/
def pySplitF (sep : List Char) : Nat → List Char → List (List Char)
  | 0, s => [s]
  | _ + 1, [] => [[]]
  | fuel + 1, c :: rest =>
      if startsWithL sep (c :: rest) then
        [] :: pySplitF sep fuel (List.drop (sep.length - 1) rest)
      else
        match pySplitF sep fuel rest with
        | [] => [[c]]
        | p :: ps => (c :: p) :: ps

/-- Python's `s.split(sep)` for a non-empty separator: split at the
left-to-right non-overlapping occurrences of `sep`. -/
def pySplit (sep s : List Char) : List (List Char) :=
  pySplitF sep s.length s

/-- Fuel-driven worker for `removeAllSub`. -/
def removeAllSubF (sub : List Char) : Nat → List Char → List Char
  | 0, s => s
  | _ + 1, [] => []
  | fuel + 1, c :: rest =>
      if startsWithL sub (c :: rest) && !sub.isEmpty then
        removeAllSubF sub fuel (List.drop (sub.length - 1) rest)
      else
        c :: removeAllSubF sub fuel rest

/-- Python's `s.replace(sub, '')`: delete the left-to-right
non-overlapping occurrences of `sub`. -/
def removeAllSub (sub s : List Char) : List Char :=
  removeAllSubF sub s.length s

/-- Python's ASCII `str.lower` on one character (the error strings the
backup handler matches are ASCII). -/
def lowerChar (c : Char) : Char :=
  if 65 ≤ c.toNat ∧ c.toNat ≤ 90 then Char.ofNat (c.toNat + 32) else c

/-- Python's `s.lower()` (ASCII fragment). -/
def lowerStr (s : List Char) : List Char := s.map lowerChar

/-! ## backup_handler.py : categorize_error (lines 500-523) -/

/-- Embedding of `categorize_error` in src/src/backup_handler.py: lowers
the message, then tests known substrings in the source's branch order,
returning the first matching category, `UNKNOWN` by default. -/
def categorize_error (error_msg : List Char) : List Char :=
  let e := lowerStr error_msg
  if hasSub "no space left".data e || hasSub "insufficient disk space".data e then
    "DISK_SPACE".data
  else if hasSub "authentication failed".data e || hasSub "permission denied".data e then
    "AUTHENTICATION".data
  else if hasSub "repository not found".data e || hasSub "not found".data e then
    "REPOSITORY_ACCESS".data
  else if hasSub "timeout".data e || hasSub "timed out".data e then
    "TIMEOUT".data
  else if hasSub "network".data e || hasSub "connection".data e || hasSub "dns".data e then
    "NETWORK".data
  else if hasSub "libpcre2".data e || hasSub "shared libraries".data e then
    "LAMBDA_LAYER".data
  else if hasSub "no such file or directory".data e && hasSub "git".data e then
    "GIT_MISSING".data
  else if hasSub "memory".data e || hasSub "out of memory".data e then
    "MEMORY".data
  else
    "UNKNOWN".data

/-! ## backup_handler.py : validate_repository_access (lines 525-562) -/

/-- Outcome of the `requests.get` call against the GitHub API in
`validate_repository_access`: either an HTTP status code, or an
exception (network failure, timeout, ...). -/
inductive ApiResp where
  | status (code : Nat)
  | exn
deriving DecidableEq

/-- Embedding of `validate_repository_access` in src/src/backup_handler.py.
The whole body sits in a `try` whose handler returns `True`; the request
is only issued when the clone URL contains `github.com/` and splitting
the text after it (with `.git` removed) on `/` yields at least two
parts.  All paths other than a 404 or 403 answer return `True`. -/
def validate_repository_access (clone_url : List Char) (resp : ApiResp) : Bool :=
  if hasSub "github.com/".data clone_url then
    let tail := (pySplit "github.com/".data clone_url).getLastD []
    let parts := pySplit "/".data (removeAllSub ".git".data tail)
    if parts.length ≥ 2 then
      match resp with
      | .status code =>
          if code = 200 then true
          else if code = 404 then false
          else if code = 403 then false
          else true
      | .exn => true
    else
      true
  else
    true

/-- The "well-formed clone URL" condition under which
`validate_repository_access` actually issues the API request. -/
def cloneUrlWellFormed (clone_url : List Char) : Bool :=
  hasSub "github.com/".data clone_url &&
    (pySplit "/".data (removeAllSub ".git".data
      ((pySplit "github.com/".data clone_url).getLastD []))).length ≥ 2

/-! ## backup_handler.py : scratch directories, disk-space guard -/

/-- One entry under the base path, as `cleanup_old_temp_directories`
observes it via `os.listdir` / `os.path.isdir` / `os.path.getmtime`.
`ageSeconds` is the current time minus the entry's mtime; `rmFails`
records whether `shutil.rmtree` (or `getmtime`) raises for this entry,
which the source catches per item. -/
structure DirEntry where
  name : List Char
  isDir : Bool
  ageSeconds : Nat
  sizeBytes : Nat
  rmFails : Bool
deriving DecidableEq

/-- The per-entry deletion test of `cleanup_old_temp_directories`
(src/src/backup_handler.py lines 473-488): the entry is a directory,
its name contains an underscore (the joined path always differs from
the base path, so that conjunct of the source condition is constant),
its age exceeds one hour (`(current - mtime) / 3600 > 1`), and the
removal itself does not raise. -/
def cleanupDeletes (e : DirEntry) : Bool :=
  e.isDir && e.name.contains '_' && decide (e.ageSeconds > 3600) && !e.rmFails

/-- Embedding of `cleanup_old_temp_directories`: the sublist of entries
it removes. -/
def cleanup_old_temp_directories (entries : List DirEntry) : List DirEntry :=
  entries.filter cleanupDeletes

/-- The scratch-directory naming convention of the orchestrator
(`backup_single_repository`, line 209): `<repository>_<int timestamp>`,
i.e. some name, an underscore, and a non-empty run of decimal digits
produced by `int(datetime.now().timestamp())`. -/
def isDigitCh (c : Char) : Bool := decide ('0' ≤ c) && decide (c ≤ '9')

/-- Characters after the last underscore of a name (empty when there is
no underscore). -/
def afterLastUnderscore : List Char → List Char
  | [] => []
  | c :: rest =>
      if rest.contains '_' then afterLastUnderscore rest
      else if c = '_' then rest
      else afterLastUnderscore rest

/-- A name matches the orchestrator's scratch naming convention
`<repository>_<timestamp>` iff it contains an underscore and everything
after the last underscore is a non-empty decimal numeral. -/
def matchesScratchConvention (name : List Char) : Bool :=
  name.contains '_' &&
    !(afterLastUnderscore name).isEmpty &&
    (afterLastUnderscore name).all isDigitCh

/-- State of the filesystem under the checked path: free bytes plus the
entries of the base directory. -/
structure DiskState where
  availBytes : Nat
  entries : List DirEntry
deriving DecidableEq

/-- Running the reclamation pass over a `DiskState`: deleted directories
free their bytes. -/
def runCleanup (st : DiskState) : DiskState :=
  { availBytes := st.availBytes + ((cleanup_old_temp_directories st.entries).map DirEntry.sizeBytes).sum
    entries := st.entries.filter (fun e => !cleanupDeletes e) }

/-- One megabyte, the unit of `required_mb`. -/
def MBytes : Nat := 1024 * 1024

/-- The body of the `try` block of `check_disk_space`
(src/src/backup_handler.py lines 437-456): measure, and if short,
clean up, re-measure, and raise `RuntimeError` when still short.
Returns the filesystem state after any cleanup together with the raised
message, if one was raised inside the block. -/
def check_disk_space_try (st : DiskState) (required_mb : Nat) : DiskState × Option (List Char) :=
  if st.availBytes < required_mb * MBytes then
    let st' := runCleanup st
    if st'.availBytes < required_mb * MBytes then
      (st', some "Insufficient disk space".data)
    else
      (st', none)
  else
    (st, none)

/-- Embedding of `check_disk_space`: the `try` body runs, and the
enclosing `except Exception` handler (lines 458-460) catches every
exception — including the `RuntimeError` the body itself raised — and
only logs it.  The second component is the exception propagated to the
caller, which is always `none`. -/
def check_disk_space (st : DiskState) (required_mb : Nat) : DiskState × Option (List Char) :=
  ((check_disk_space_try st required_mb).1, none)

/-! ## backup_handler.py : the versioned S3 key (lines 78, 240-242) -/

/-- One decimal digit character. -/
def dchar (d : Nat) : Char := Char.ofNat (48 + d)

/-- Two-digit zero-padded decimal rendering (`strftime` `%m` `%d` `%H` `%M`). -/
def pad2 (n : Nat) : List Char := [dchar (n / 10), dchar (n % 10)]

/-- Four-digit zero-padded decimal rendering (`strftime` `%Y` for years
below 10000). -/
def pad4 (n : Nat) : List Char :=
  [dchar (n / 1000), dchar (n / 100 % 10), dchar (n / 10 % 10), dchar (n % 10)]

/-- `datetime.now().strftime('%Y-%m-%d')` (lambda_handler line 78). -/
def dateStr (y mo d : Nat) : List Char :=
  pad4 y ++ "-".data ++ pad2 mo ++ "-".data ++ pad2 d

/-- `datetime.now().strftime('%H-%M')` (backup_single_repository line 241). -/
def timeStr (h mi : Nat) : List Char := pad2 h ++ "-".data ++ pad2 mi

/-- The storage key built at backup_single_repository line 242:
`nightly/<repo>/<date_str>-<timestamp>.tar.gz`, where `date_str` is the
year-month-day taken in `lambda_handler` at its start and the hour-minute
is taken just before upload. -/
def nightlyKey (repo : List Char) (y mo d h mi : Nat) : List Char :=
  "nightly/".data ++ repo ++ "/".data ++ dateStr y mo d ++ "-".data ++
    timeStr h mi ++ ".tar.gz".data

/-- A wall-clock instant at second granularity, the resolution at which
one backup can start after another. -/
structure Tm where
  year : Nat
  month : Nat
  day : Nat
  hour : Nat
  minute : Nat
  second : Nat
deriving DecidableEq

/-- Chronological strict order on instants (lexicographic on the six
fields). -/
def tmLt (a b : Tm) : Prop :=
  a.year < b.year ∨ (a.year = b.year ∧
    (a.month < b.month ∨ (a.month = b.month ∧
      (a.day < b.day ∨ (a.day = b.day ∧
        (a.hour < b.hour ∨ (a.hour = b.hour ∧
          (a.minute < b.minute ∨ (a.minute = b.minute ∧
            a.second < b.second)))))))))

instance : Decidable (tmLt a b) := by unfold tmLt; infer_instance

/-- The key produced for a backup whose `lambda_handler` invocation
started at `start` (fixing `date_str`) and whose upload happened at
`up` (fixing the `%H-%M` timestamp). -/
def producedKey (repo : List Char) (start up : Tm) : List Char :=
  nightlyKey repo start.year start.month start.day up.hour up.minute

/-! ## backup_handler.py : lambda_handler / backup_single_repository -/

/-- Externally observable actions of one backup run.  Audit events are
included so the archived-skip path still has a faithful trace; clone,
compression and upload are the storage-affecting steps. -/
inductive BackupEffect where
  | auditEvent (status : List Char)
  | makeTempDir
  | diskCheck
  | cloneRepo
  | compressRepo
  | removeRepoDir
  | uploadObject (key : List Char)
  | removeTempDir
deriving DecidableEq

/-- The input record `repo_info` extracted from the event
(lambda_handler lines 34-41). -/
structure RepoInfo where
  name : List Char
  clone_url : List Char
  archived : Bool
  sizeKb : Nat
deriving DecidableEq

/-- Outcome dictionary returned by the handler. -/
structure BackupOutcome where
  repository : List Char
  success : Bool
  skipped : Bool
  s3_key : Option (List Char)
  size_bytes : Option Nat
  error : Option (List Char)
deriving DecidableEq

/-- Environment resolving the effectful steps of
`backup_single_repository`: whether the access validation answers true,
and whether clone / compression / upload raise. -/
structure BackupEnv where
  validateOk : Bool
  cloneOk : Bool
  compressOk : Bool
  uploadOk : Bool
  archiveSize : Nat
deriving DecidableEq

/-- Embedding of `backup_single_repository`
(src/src/backup_handler.py lines 201-292): temp dir, disk check,
access validation, clone, second disk check, compression, immediate
removal of the cloned tree, upload under the versioned key, and the
`finally` removal of the whole scratch directory.  The two
`check_disk_space` calls never raise (their handler swallows the
error, see `check_disk_space`), so they do not branch.  Failures of the
remaining steps raise, are re-wrapped by the `except` block, and
propagate to the caller after the `finally` cleanup; `lambda_handler`
then converts them to a failed outcome. -/
def backup_single_repository (repo : RepoInfo) (env : BackupEnv)
    (start up : Tm) : Except (List Char) (BackupOutcome) × List BackupEffect :=
  let base : List BackupEffect := [.makeTempDir, .diskCheck]
  if !env.validateOk then
    (.error ("Repository ".data ++ repo.name ++ " is not accessible with current token".data),
      base ++ [.removeTempDir])
  else if !env.cloneOk then
    (.error ("Git clone failed for ".data ++ repo.name),
      base ++ [.cloneRepo, .removeTempDir])
  else if !env.compressOk then
    (.error ("Failed to backup ".data ++ repo.name),
      base ++ [.cloneRepo, .diskCheck, .compressRepo, .removeTempDir])
  else
    let key := producedKey repo.name start up
    if !env.uploadOk then
      (.error ("Failed to backup ".data ++ repo.name),
        base ++ [.cloneRepo, .diskCheck, .compressRepo, .removeRepoDir,
          .uploadObject key, .removeTempDir])
    else
      (.ok { repository := repo.name, success := true, skipped := false,
             s3_key := some key, size_bytes := some env.archiveSize, error := none },
        base ++ [.cloneRepo, .diskCheck, .compressRepo, .removeRepoDir,
          .uploadObject key, .removeTempDir])

/-- Embedding of `lambda_handler` (src/src/backup_handler.py lines
18-147), starting at the point where `repo_info` has been assembled: it
logs the start event, returns a skipped outcome for archived
repositories before any other step, and otherwise runs
`backup_single_repository`, converting a raised exception into a failed
outcome. -/
def lambda_handler (repo : RepoInfo) (env : BackupEnv) (start up : Tm) :
    BackupOutcome × List BackupEffect :=
  if repo.archived then
    ({ repository := repo.name, success := false, skipped := true,
       s3_key := none, size_bytes := none, error := none },
      [.auditEvent "started".data, .auditEvent "skipped".data])
  else
    match backup_single_repository repo env start up with
    | (.ok outcome, effs) =>
        (outcome, .auditEvent "started".data :: effs ++ [.auditEvent "completed".data])
    | (.error msg, effs) =>
        ({ repository := repo.name, success := false, skipped := false,
           s3_key := none, size_bytes := none, error := some msg },
          .auditEvent "started".data :: effs ++ [.auditEvent "failed".data])

/-! ## archival_handler.py : archive_single_backup (lines 114-178) -/

/-- The four storage-affecting steps of a cold migration. -/
inductive ArchiveStep where
  | downloadHot
  | uploadGlacier
  | putMetadata
  | deleteHot
deriving DecidableEq

/-- Environment resolving which of the four steps raises. -/
structure ArchiveEnv where
  downloadOk : Bool
  uploadOk : Bool
  metadataOk : Bool
  deleteOk : Bool
deriving DecidableEq

/-- Embedding of `archive_single_backup`
(src/src/archival_handler.py lines 114-178): download the hot object,
upload it to Glacier, write the `archived/<key>.metadata.json`
ArchiveRecord, then delete the hot object.  An exception at any step
aborts the sequence (the `except` block returns a failed result), so
the performed trace is the prefix up to the first failing step.
Returns the trace of completed steps and the `success` flag of the
returned dictionary. -/
def archive_single_backup (env : ArchiveEnv) : List ArchiveStep × Bool :=
  if !env.downloadOk then ([], false)
  else if !env.uploadOk then ([.downloadHot], false)
  else if !env.metadataOk then ([.downloadHot, .uploadGlacier], false)
  else if !env.deleteOk then ([.downloadHot, .uploadGlacier, .putMetadata], false)
  else ([.downloadHot, .uploadGlacier, .putMetadata, .deleteHot], true)

/-! ## api_handler.py : download operations (lines 500-778) -/

/-- The `details` map of a download-operation record.  Each field is a
possible key; `update_download_status` replaces the whole map when a new
one is supplied. -/
structure DownloadDetails where
  s3_key : Option String := none
  glacier_job_id : Option String := none
  restore_tier : Option String := none
  restore_status : Option String := none
  estimated_completion : Option String := none
  restore_days : Option Nat := none
  restore_completed : Option Bool := none
  download_url : Option String := none
  expires_at : Option String := none
deriving DecidableEq

/-- An item of the `github-backup-download-operations` table, as created
by `audit_logger.create_download_operation` and mutated by
`update_download_status`. -/
structure DownloadRecord where
  repository_name : String
  status : String
  download_type : String
  source_location : String
  details : Option DownloadDetails
  error : Option String
deriving DecidableEq

/-- The download-operations table, keyed by `download_id`. -/
def Store := List (String × DownloadRecord)

instance : DecidableEq Store := by unfold Store; infer_instance

/-- `get_item` on the download table. -/
def Store.lookupId (st : Store) (id : String) : Option DownloadRecord :=
  (st.find? (fun p => p.1 = id)).map (·.2)

/-- Embedding of `audit_logger.update_download_status`
(src/src/audit_logger.py lines 170-213): an `update_item` that always
sets `status`, replaces `details` when one is given, and sets `error`
when one is given.  All modelled flows update records that exist, so
the update is a map over the table. -/
def update_download_status (st : Store) (id status : String)
    (details : Option DownloadDetails) (error : Option String) : Store :=
  st.map (fun p =>
    if p.1 = id then
      (p.1, { p.2 with
        status := status
        details := match details with | some d => some d | none => p.2.details
        error := match error with | some e => some e | none => p.2.error })
    else p)

/-- Result of `s3.head_object` for a key, focused on the `Restore`
header: restored (`ongoing-request="false"`), restore in flight
(`ongoing-request="true"`), no restore information, a `NotFound` client
error, or any other raised error. -/
inductive HeadResult where
  | restoreDone
  | restoreOngoing
  | noRestore
  | notFound
  | raises (msg : String)
deriving DecidableEq

/-- The S3 collaborators of the retrieval state machine: the per-key
`head_object` outcome, whether `restore_object` raises, and the
pre-signed URL generator. -/
structure S3World where
  head : String → HeadResult
  restoreRaises : Option String
  presign : String → String
  nowIso : String
  expiresIso : String

/-- Embedding of `handle_s3_download` (src/src/api_handler.py lines
500-552): generate a 24-hour pre-signed URL and persist status
`completed` with the URL in the details.  (URL generation is a pure
local computation; the failure path of this function is not needed by
the claims, which exercise it only on existing hot objects.) -/
def handle_s3_download (w : S3World) (st : Store) (download_id s3_key : String) :
    Store × (String × Option String) :=
  let url := w.presign s3_key
  (update_download_status st download_id "completed"
      (some { download_url := some url, expires_at := some w.expiresIso })
      none,
    ("completed", some url))

/-- Python's `'request_body' in locals()` inside
`handle_glacier_download` (src/src/api_handler.py line 598): the
function has no local named `request_body` — the name exists only in
the separate `initiate_download` frame — so the test is constantly
false. -/
def request_body_in_locals : Bool := false

/-- The tier-to-estimate table of `handle_glacier_download`
(lines 610-615), including the `.get` default. -/
def completionTime (tier : String) : String :=
  if tier = "Expedited" then "1-5 minutes"
  else if tier = "Standard" then "3-5 hours"
  else if tier = "Bulk" then "5-12 hours"
  else "3-5 hours"

/-- Returned dictionary of `handle_glacier_download` (status and, when
present, restore tier / estimate / download URL), or the exception it
re-raises. -/
inductive GlacierDlResult where
  | ok (status : String) (tier estimate url : Option String)
  | raised (msg : String)
deriving DecidableEq

/-- Embedding of `handle_glacier_download` (src/src/api_handler.py
lines 554-658).  `tierFromBody` is the `retrieval_tier` of the caller's
request body; because `request_body_in_locals` is false the code falls
back to `Standard` regardless of it.  Any exception — the synthetic
`Object not found`, a re-raised client error, or a `restore_object`
failure — reaches the outer handler, which persists status `failed`
with the message and re-raises. -/
def handle_glacier_download (w : S3World) (st : Store)
    (download_id s3_key : String) (tierFromBody : Option String) :
    Store × GlacierDlResult :=
  match w.head s3_key with
  | .restoreOngoing =>
      (update_download_status st download_id "in_progress"
          (some { restore_status := some "already_in_progress",
                  estimated_completion := some "3-5 hours" }) none,
        .ok "in_progress" none (some "3-5 hours") none)
  | .restoreDone =>
      let (st', r) := handle_s3_download w st download_id s3_key
      (st', .ok r.1 none none r.2)
  | .noRestore =>
      let retrieval_tier :=
        if request_body_in_locals then tierFromBody.getD "Standard" else "Standard"
      let tier :=
        if retrieval_tier = "Expedited" ∨ retrieval_tier = "Standard" ∨
            retrieval_tier = "Bulk" then retrieval_tier else "Standard"
      match w.restoreRaises with
      | some msg =>
          (update_download_status st download_id "failed" none (some msg),
            .raised msg)
      | none =>
          let estimated := completionTime tier
          (update_download_status st download_id "in_progress"
              (some { s3_key := some s3_key, restore_tier := some tier,
                      estimated_completion := some estimated,
                      restore_days := some 7 }) none,
            .ok "in_progress" (some tier) (some estimated) none)
  | .notFound =>
      let msg := "Object not found: " ++ s3_key
      (update_download_status st download_id "failed" none (some msg),
        .raised msg)
  | .raises msg =>
      (update_download_status st download_id "failed" none (some msg),
        .raised msg)

/-- Returned dictionary of `check_glacier_job_status`: a status plus
optional error and download URL keys. -/
structure JobStatus where
  status : String
  error : Option String
  download_url : Option String
deriving DecidableEq

/-- The key resolution of `check_glacier_job_status` line 720:
`details.get('s3_key') or item.get('source_location')`, where Python's
`or` also falls through on an empty string. -/
def effectiveS3Key (item : DownloadRecord) : String :=
  match (item.details.getD {}).s3_key with
  | some k => if k = "" then item.source_location else k
  | none => item.source_location

/-- Embedding of `check_glacier_job_status` (src/src/api_handler.py
lines 708-778).  On a completed restore it persists `completed` with
the URL; while the restore is ongoing it returns `in_progress` without
touching the record; a missing object or missing restore information
yields a `failed` dictionary WITHOUT updating the record; any other
raised error reaches the outer handler, which logs and returns
`in_progress` (line 778), also without updating the record. -/
def check_glacier_job_status (w : S3World) (st : Store) (download_id : String) :
    Store × JobStatus :=
  match st.lookupId download_id with
  | none => (st, ⟨"failed", some "Download operation not found", none⟩)
  | some item =>
      let s3_key := effectiveS3Key item
      if s3_key = "" then
        (st, ⟨"failed", some "S3 key not found in download details", none⟩)
      else
        match w.head s3_key with
        | .restoreDone =>
            let url := w.presign s3_key
            (update_download_status st download_id "completed"
                (some { restore_completed := some true,
                        download_url := some url,
                        expires_at := some w.expiresIso }) none,
              ⟨"completed", none, some url⟩)
        | .restoreOngoing => (st, ⟨"in_progress", none, none⟩)
        | .noRestore => (st, ⟨"failed", some "No restore information found", none⟩)
        | .notFound => (st, ⟨"failed", some "Object not found", none⟩)
        | .raises _ => (st, ⟨"in_progress", none, none⟩)

/-- Embedding of `get_download_status` (src/src/api_handler.py lines
660-706): fetch the record; when it is a glacier retrieval still
`in_progress` and its details carry a `glacier_job_id`, poll via
`check_glacier_job_status` and merge the returned keys over the
reported item (`download_item.update(...)`).  Returns the table after
the call, the HTTP status code, and the reported item together with the
merged top-level `download_url` key, when any. -/
def get_download_status (w : S3World) (st : Store) (download_id : String) :
    Store × Nat × Option (DownloadRecord × Option String) :=
  if download_id = "" then (st, 400, none)
  else
    match st.lookupId download_id with
    | none => (st, 404, none)
    | some item =>
        if item.download_type = "glacier_retrieval" ∧ item.status = "in_progress" then
          match (item.details.getD {}).glacier_job_id with
          | some _ =>
              let (st', r) := check_glacier_job_status w st download_id
              (st', 200, some
                ({ item with
                    status := r.status
                    error := match r.error with | some e => some e | none => item.error },
                  r.download_url))
          | none => (st, 200, some (item, none))
        else (st, 200, some (item, none))

/-- Strict order on the formatted stamps of two backups: the pair
(start date from `lambda_handler`, upload hour-minute from
`backup_single_repository`) of the first is lexicographically before
that of the second. -/
def keyStampLt (s1 u1 s2 u2 : Tm) : Prop :=
  s1.year < s2.year ∨ (s1.year = s2.year ∧
    (s1.month < s2.month ∨ (s1.month = s2.month ∧
      (s1.day < s2.day ∨ (s1.day = s2.day ∧
        (u1.hour < u2.hour ∨ (u1.hour = u2.hour ∧
          u1.minute < u2.minute)))))))

instance : Decidable (keyStampLt s1 u1 s2 u2) := by
  unfold keyStampLt; infer_instance

/-! ## Concrete fixtures used by claim-level theorems and witnesses -/

/-- A disk state with 100 MB free and nothing reclaimable. -/
def lowDisk : DiskState := ⟨100 * MBytes, []⟩

/-- A two-hour-old directory named outside the orchestrator scratch
convention (nothing numeric after the last underscore). -/
def dirOldJunk : DirEntry := ⟨"old_junk".data, true, 7200, 5, false⟩

/-- 2024-01-01 12:30:10. -/
def tmA : Tm := ⟨2024, 1, 1, 12, 30, 10⟩

/-- 2024-01-01 12:30:50 — later than `tmA`, same formatted minute. -/
def tmB : Tm := ⟨2024, 1, 1, 12, 30, 50⟩

/-- 2024-01-01 12:31:00 — the following minute. -/
def tmC : Tm := ⟨2024, 1, 1, 12, 31, 0⟩

/-- An archived repository snapshot. -/
def repoArchived : RepoInfo :=
  ⟨"demo".data, "https://github.com/acme/demo.git".data, true, 50000⟩

/-- A backup environment in which every step succeeds. -/
def envAllOk : BackupEnv := ⟨true, true, true, true, 1234⟩

/-- An archival environment in which every step succeeds. -/
def archAllOk : ArchiveEnv := ⟨true, true, true, true⟩

/-- An error message matching both the disk-space and the
authentication patterns. -/
def msgBoth : String := "no space left on device: authentication failed"

/-- A world whose `head_object` raises an unexpected error. -/
def wBoom : S3World :=
  { head := fun _ => .raises "boom"
    restoreRaises := none
    presign := fun k => "https://signed/" ++ k
    nowIso := "2026-10-12T00:00:00"
    expiresIso := "2026-10-13T00:00:00" }

/-- A world whose objects carry no restore information and whose
restore request succeeds. -/
def wNoRestore : S3World :=
  { head := fun _ => .noRestore
    restoreRaises := none
    presign := fun k => "https://signed/" ++ k
    nowIso := "2026-10-12T00:00:00"
    expiresIso := "2026-10-13T00:00:00" }

/-- A world whose objects carry no restore information and whose
restore request raises. -/
def wRestoreBoom : S3World :=
  { wNoRestore with restoreRaises := some "boom" }

/-- A world whose `head_object` answers `NotFound`. -/
def wGone : S3World :=
  { wNoRestore with head := fun _ => .notFound }

/-- A freshly created glacier download operation (status `requested`). -/
def recReq : DownloadRecord :=
  { repository_name := "demo"
    status := "requested"
    download_type := "glacier_retrieval"
    source_location := "nightly/demo/2025-01-01-02-30.tar.gz"
    details := none
    error := none }

/-- An in-flight glacier download operation. -/
def recInProg : DownloadRecord :=
  { repository_name := "demo"
    status := "in_progress"
    download_type := "glacier_retrieval"
    source_location := "nightly/demo/2025-01-01-02-30.tar.gz"
    details := some { s3_key := some "nightly/demo/2025-01-01-02-30.tar.gz"
                      glacier_job_id := some "job-1" }
    error := none }

/-- A completed glacier download operation holding its access handle. -/
def recDone : DownloadRecord :=
  { repository_name := "demo"
    status := "completed"
    download_type := "glacier_retrieval"
    source_location := "nightly/demo/2025-01-01-02-30.tar.gz"
    details := some { download_url := some "https://signed/demo"
                      expires_at := some "2026-10-13T00:00:00" }
    error := none }

/-- A table holding one freshly requested operation. -/
def stReq : Store := [("dl-2", recReq)]

/-- A table holding one in-flight operation. -/
def stInProg : Store := [("dl-1", recInProg)]

/-- A table holding one completed operation. -/
def stDone : Store := [("dl-9", recDone)]

/-! ## Lemmas about lexicographic order and zero-padded numerals -/

theorem lexLtB_append_left (p xs ys : List Char) (h : lexLtB xs ys = true) :
    lexLtB (p ++ xs) (p ++ ys) = true := by
  induction p with
  | nil => simpa using h
  | cons a as ih => simpa [lexLtB] using ih

theorem lexLtB_append_congr (xs ys u v : List Char) (hlen : xs.length = ys.length)
    (h : lexLtB xs ys = true) : lexLtB (xs ++ u) (ys ++ v) = true := by
  induction xs generalizing ys with
  | nil =>
    cases ys with
    | nil => simp [lexLtB] at h
    | cons b bs => simp at hlen
  | cons a as ih =>
    cases ys with
    | nil => simp at hlen
    | cons b bs =>
      by_cases hab : a = b
      · subst hab
        simp only [lexLtB, if_pos rfl] at h
        simpa [List.cons_append, lexLtB] using ih bs (by simpa using hlen) h
      · simp only [lexLtB, if_neg hab] at h
        simpa [List.cons_append, lexLtB, hab] using h

theorem lexLtB_common_then (p xs ys u v : List Char) (hlen : xs.length = ys.length)
    (h : lexLtB xs ys = true) : lexLtB (p ++ (xs ++ u)) (p ++ (ys ++ v)) = true :=
  lexLtB_append_left p _ _ (lexLtB_append_congr xs ys u v hlen h)

theorem dchar_lt : ∀ a < 10, ∀ b < 10, a < b → dchar a < dchar b := by decide

theorem dchar_ne : ∀ a < 10, ∀ b < 10, a ≠ b → dchar a ≠ dchar b := by decide

theorem lexLtB_pad2 (a b : Nat) (hb : b < 100) (h : a < b) :
    lexLtB (pad2 a) (pad2 b) = true := by
  have ha : a < 100 := lt_trans h hb
  have h10a : a / 10 < 10 := by omega
  have h10b : b / 10 < 10 := by omega
  have hma : a % 10 < 10 := by omega
  have hmb : b % 10 < 10 := by omega
  rcases Nat.lt_or_ge (a / 10) (b / 10) with hd | hd
  · simp [pad2, lexLtB, dchar_ne _ h10a _ h10b (Nat.ne_of_lt hd),
      dchar_lt _ h10a _ h10b hd]
  · have heq : a / 10 = b / 10 :=
      le_antisymm (Nat.div_le_div_right h.le) hd
    have hm : a % 10 < b % 10 := by omega
    simp [pad2, lexLtB, heq, dchar_ne _ hma _ hmb (Nat.ne_of_lt hm),
      dchar_lt _ hma _ hmb hm]

theorem lexLtB_pad4 (a b : Nat) (hb : b < 10000) (h : a < b) :
    lexLtB (pad4 a) (pad4 b) = true := by
  have ha : a < 10000 := lt_trans h hb
  have h0a : a / 1000 < 10 := by omega
  have h0b : b / 1000 < 10 := by omega
  have h1a : a / 100 % 10 < 10 := by omega
  have h1b : b / 100 % 10 < 10 := by omega
  have h2a : a / 10 % 10 < 10 := by omega
  have h2b : b / 10 % 10 < 10 := by omega
  have h3a : a % 10 < 10 := by omega
  have h3b : b % 10 < 10 := by omega
  rcases Nat.lt_or_ge (a / 1000) (b / 1000) with h0 | h0
  · simp [pad4, lexLtB, dchar_ne _ h0a _ h0b (Nat.ne_of_lt h0),
      dchar_lt _ h0a _ h0b h0]
  · have e0 : a / 1000 = b / 1000 :=
      le_antisymm (Nat.div_le_div_right h.le) h0
    rcases Nat.lt_or_ge (a / 100 % 10) (b / 100 % 10) with h1 | h1
    · simp [pad4, lexLtB, e0, dchar_ne _ h1a _ h1b (Nat.ne_of_lt h1),
        dchar_lt _ h1a _ h1b h1]
    · have e1 : a / 100 % 10 = b / 100 % 10 := by omega
      rcases Nat.lt_or_ge (a / 10 % 10) (b / 10 % 10) with h2 | h2
      · simp [pad4, lexLtB, e0, e1, dchar_ne _ h2a _ h2b (Nat.ne_of_lt h2),
          dchar_lt _ h2a _ h2b h2]
      · have e2 : a / 10 % 10 = b / 10 % 10 := by omega
        have h3 : a % 10 < b % 10 := by omega
        simp [pad4, lexLtB, e0, e1, e2, dchar_ne _ h3a _ h3b (Nat.ne_of_lt h3),
          dchar_lt _ h3a _ h3b h3]

theorem pad2_length (n : Nat) : (pad2 n).length = 2 := rfl

theorem pad4_length (n : Nat) : (pad4 n).length = 4 := rfl

/-- C5 (amended): for one repository, the nightly storage keys of two
successful backups sort strictly increasing under plain lexicographic
string order whenever the second backup's formatted stamp — the
`%Y-%m-%d` date taken at handler start together with the `%H-%M` time
taken at upload — is strictly greater than the first's; the fields are
in their calendar ranges, so in particular below the padding widths.
(As stated over bare start instants the claim fails: two backups in the
same formatted minute produce equal keys, see the counterexample.) -/
theorem producedKey_mono (repo : List Char) (s1 u1 s2 u2 : Tm)
    (hy : s2.year < 10000) (hmo : s2.month < 100) (hd : s2.day < 100)
    (hh : u2.hour < 100) (hmi : u2.minute < 100)
    (hlt : keyStampLt s1 u1 s2 u2) :
    lexLtB (producedKey repo s1 u1) (producedKey repo s2 u2) = true := by
  rcases hlt with h | ⟨ey, h⟩
  · have := lexLtB_common_then
      ("nightly/".data ++ (repo ++ "/".data))
      (pad4 s1.year) (pad4 s2.year)
      ("-".data ++ (pad2 s1.month ++ ("-".data ++ (pad2 s1.day ++ ("-".data ++
        (pad2 u1.hour ++ ("-".data ++ (pad2 u1.minute ++ ".tar.gz".data))))))))
      ("-".data ++ (pad2 s2.month ++ ("-".data ++ (pad2 s2.day ++ ("-".data ++
        (pad2 u2.hour ++ ("-".data ++ (pad2 u2.minute ++ ".tar.gz".data))))))))
      (by simp [pad4_length]) (lexLtB_pad4 _ _ hy h)
    simpa [producedKey, nightlyKey, dateStr, timeStr, List.append_assoc] using this
  · rcases h with h | ⟨emo, h⟩
    · have := lexLtB_common_then
        ("nightly/".data ++ (repo ++ ("/".data ++ (pad4 s2.year ++ "-".data))))
        (pad2 s1.month) (pad2 s2.month)
        ("-".data ++ (pad2 s1.day ++ ("-".data ++
          (pad2 u1.hour ++ ("-".data ++ (pad2 u1.minute ++ ".tar.gz".data))))))
        ("-".data ++ (pad2 s2.day ++ ("-".data ++
          (pad2 u2.hour ++ ("-".data ++ (pad2 u2.minute ++ ".tar.gz".data))))))
        (by simp [pad2_length]) (lexLtB_pad2 _ _ hmo h)
      simpa [producedKey, nightlyKey, dateStr, timeStr, List.append_assoc, ey] using this
    · rcases h with h | ⟨ed, h⟩
      · have := lexLtB_common_then
          ("nightly/".data ++ (repo ++ ("/".data ++ (pad4 s2.year ++ ("-".data ++
            (pad2 s2.month ++ "-".data))))))
          (pad2 s1.day) (pad2 s2.day)
          ("-".data ++ (pad2 u1.hour ++ ("-".data ++ (pad2 u1.minute ++ ".tar.gz".data))))
          ("-".data ++ (pad2 u2.hour ++ ("-".data ++ (pad2 u2.minute ++ ".tar.gz".data))))
          (by simp [pad2_length]) (lexLtB_pad2 _ _ hd h)
        simpa [producedKey, nightlyKey, dateStr, timeStr, List.append_assoc, ey, emo]
          using this
      · rcases h with h | ⟨eh, h⟩
        · have := lexLtB_common_then
            ("nightly/".data ++ (repo ++ ("/".data ++ (pad4 s2.year ++ ("-".data ++
              (pad2 s2.month ++ ("-".data ++ (pad2 s2.day ++ "-".data))))))))
            (pad2 u1.hour) (pad2 u2.hour)
            ("-".data ++ (pad2 u1.minute ++ ".tar.gz".data))
            ("-".data ++ (pad2 u2.minute ++ ".tar.gz".data))
            (by simp [pad2_length]) (lexLtB_pad2 _ _ hh h)
          simpa [producedKey, nightlyKey, dateStr, timeStr, List.append_assoc, ey, emo, ed]
            using this
        · have := lexLtB_common_then
            ("nightly/".data ++ (repo ++ ("/".data ++ (pad4 s2.year ++ ("-".data ++
              (pad2 s2.month ++ ("-".data ++ (pad2 s2.day ++ ("-".data ++
                (pad2 u2.hour ++ "-".data))))))))))
            (pad2 u1.minute) (pad2 u2.minute)
            (".tar.gz".data) (".tar.gz".data)
            (by simp [pad2_length]) (lexLtB_pad2 _ _ hmi h)
          simpa [producedKey, nightlyKey, dateStr, timeStr, List.append_assoc,
            ey, emo, ed, eh] using this

/-! ## Claim-level theorems -/

/-- C1: the claim says `check_disk_space` performs one reclamation pass
and then raises a resource-exhausted error whenever the re-measured
free space is still below `required_mb`, returning ok only when enough
space is available.  The code contradicts this: the `RuntimeError` its
`try` block raises is caught by the function's own blanket
`except Exception` handler, so the guard never signals failure to its
caller.  The theorem shows (1) the propagated exception is always
`none`, and (2) at a concrete starved state the body raises internally,
the re-measured space is still insufficient, yet the caller sees ok. -/
theorem check_disk_space_never_signals :
    (∀ st required_mb, (check_disk_space st required_mb).2 = none) ∧
    (check_disk_space_try lowDisk 1000).2 = some "Insufficient disk space".data ∧
    (check_disk_space lowDisk 1000).1.availBytes < 1000 * MBytes ∧
    (check_disk_space lowDisk 1000).2 = none :=
  ⟨fun _ _ => rfl, by decide, by decide, rfl⟩

/-- C2: the claim says a cold-tier download whose restore is not yet
requested issues the restore with the caller-selected tier, a "bulk"
request persisting and returning the estimate "5-12 hours".  The code
contradicts this: `'request_body' in locals()` is false inside
`handle_glacier_download`, so the tier is always `Standard` with
estimate "3-5 hours" even when the caller asked for `Bulk`, although
the published table does map `Bulk` to "5-12 hours". -/
theorem glacier_bulk_tier_ignored :
    request_body_in_locals = false ∧
    (handle_glacier_download wNoRestore stReq "dl-2" "nightly/demo/2025-01-01-02-30.tar.gz"
        (some "Bulk")).2 =
      .ok "in_progress" (some "Standard") (some "3-5 hours") none ∧
    (((handle_glacier_download wNoRestore stReq "dl-2" "nightly/demo/2025-01-01-02-30.tar.gz"
        (some "Bulk")).1.lookupId "dl-2").map
          (fun r => ((r.details.getD {}).restore_tier, (r.details.getD {}).estimated_completion))) =
      some (some "Standard", some "3-5 hours") ∧
    completionTime "Bulk" = "5-12 hours" := by
  refine ⟨rfl, by decide, by decide, rfl⟩

/-- C3 (amended): during the restore request
(`handle_glacier_download`) every unexpected failure — a raised head,
a raised restore call, or the synthesized missing-object error — does
persist status `failed` with the message verbatim; but during a poll
(`check_glacier_job_status`) an unexpected failure leaves the stored
record untouched and reports `in_progress`, and a missing object is
reported as `failed` with a diagnostic without updating the persisted
record. -/
theorem glacier_failure_handling (w : S3World) (st : Store) (id key msg : String)
    (tier : Option String) (item : DownloadRecord) :
    (w.head key = .raises msg →
      handle_glacier_download w st id key tier =
        (update_download_status st id "failed" none (some msg), .raised msg)) ∧
    (w.head key = .noRestore → w.restoreRaises = some msg →
      handle_glacier_download w st id key tier =
        (update_download_status st id "failed" none (some msg), .raised msg)) ∧
    (w.head key = .notFound →
      handle_glacier_download w st id key tier =
        (update_download_status st id "failed" none (some ("Object not found: " ++ key)),
          .raised ("Object not found: " ++ key))) ∧
    (st.lookupId id = some item → effectiveS3Key item ≠ "" →
      w.head (effectiveS3Key item) = .raises msg →
      check_glacier_job_status w st id = (st, ⟨"in_progress", none, none⟩)) ∧
    (st.lookupId id = some item → effectiveS3Key item ≠ "" →
      w.head (effectiveS3Key item) = .notFound →
      check_glacier_job_status w st id = (st, ⟨"failed", some "Object not found", none⟩)) := by
  refine ⟨?_, ?_, ?_, ?_, ?_⟩
  · intro h; simp [handle_glacier_download, h]
  · intro h hr; simp [handle_glacier_download, h, hr]
  · intro h; simp [handle_glacier_download, h]
  · intro hlook hkey hhead
    unfold check_glacier_job_status
    simp [hlook, hkey, hhead]
  · intro hlook hkey hhead
    unfold check_glacier_job_status
    simp [hlook, hkey, hhead]

/-- C3 counterexample: at a concrete in-flight glacier operation, an
unexpected failure while polling does NOT transition the operation to
failed — the poll reports `in_progress` with no error recorded and the
stored record is unchanged, refuting the claim as stated. -/
theorem glacier_poll_failure_counterexample :
    (check_glacier_job_status wBoom stInProg "dl-1").2.status = "in_progress" ∧
    (check_glacier_job_status wBoom stInProg "dl-1").2.status ≠ "failed" ∧
    (check_glacier_job_status wBoom stInProg "dl-1").2.error = none ∧
    (check_glacier_job_status wBoom stInProg "dl-1").1 = stInProg ∧
    ((stInProg.lookupId "dl-1").map DownloadRecord.status) = some "in_progress" := by
  decide

/-- C3 witness: the amended theorem applied at concrete worlds and a
concrete store. -/
theorem glacier_failure_handling_witness :
    (handle_glacier_download wBoom stInProg "dl-1" "k" none =
      (update_download_status stInProg "dl-1" "failed" none (some "boom"), .raised "boom")) ∧
    (handle_glacier_download wRestoreBoom stInProg "dl-1" "k" none =
      (update_download_status stInProg "dl-1" "failed" none (some "boom"), .raised "boom")) ∧
    (handle_glacier_download wGone stInProg "dl-1" "k" none =
      (update_download_status stInProg "dl-1" "failed" none (some "Object not found: k"),
        .raised "Object not found: k")) ∧
    (check_glacier_job_status wBoom stInProg "dl-1" = (stInProg, ⟨"in_progress", none, none⟩)) ∧
    (check_glacier_job_status wGone stInProg "dl-1" =
      (stInProg, ⟨"failed", some "Object not found", none⟩)) :=
  ⟨(glacier_failure_handling wBoom stInProg "dl-1" "k" "boom" none recInProg).1 rfl,
   (glacier_failure_handling wRestoreBoom stInProg "dl-1" "k" "boom" none recInProg).2.1 rfl rfl,
   (glacier_failure_handling wGone stInProg "dl-1" "k" "boom" none recInProg).2.2.1 rfl,
   (glacier_failure_handling wBoom stInProg "dl-1" "k" "boom" none recInProg).2.2.2.1
     (by decide) (by decide) rfl,
   (glacier_failure_handling wGone stInProg "dl-1" "k" "boom" none recInProg).2.2.2.2
     (by decide) (by decide) rfl⟩

/-- C4 (amended): the reclamation pass deletes an entry exactly when it
is a directory whose name contains an underscore, is older than one
hour, and whose removal does not itself fail; in particular a
directory without an underscore in its name is never deleted,
whatever its age.  (The claim's stronger guard — the full
`<repository>_<timestamp>` convention — is refuted by the
counterexample: an underscore suffices.) -/
theorem cleanup_deletes_scope (entries : List DirEntry) (e : DirEntry) :
    (e ∈ cleanup_old_temp_directories entries →
      e ∈ entries ∧ e.isDir = true ∧ e.name.contains '_' = true ∧
        e.ageSeconds > 3600 ∧ e.rmFails = false) ∧
    (e.name.contains '_' = false → e ∉ cleanup_old_temp_directories entries) ∧
    (e ∈ entries → e.isDir = true → e.name.contains '_' = true →
      e.ageSeconds > 3600 → e.rmFails = false →
      e ∈ cleanup_old_temp_directories entries) := by
  refine ⟨?_, ?_, ?_⟩
  · intro h
    obtain ⟨h1, h2⟩ := List.mem_filter.mp h
    simp only [cleanupDeletes, Bool.and_eq_true, Bool.not_eq_true',
      decide_eq_true_eq] at h2
    exact ⟨h1, h2.1.1.1, h2.1.1.2, h2.1.2, h2.2⟩
  · intro hc h
    obtain ⟨_, h2⟩ := List.mem_filter.mp h
    simp only [cleanupDeletes, Bool.and_eq_true, Bool.not_eq_true',
      decide_eq_true_eq] at h2
    rw [hc] at h2
    exact absurd h2.1.1.2 (by decide)
  · intro hm hd hc ha hr
    exact List.mem_filter.mpr ⟨hm, by
      simp only [cleanupDeletes, Bool.and_eq_true, Bool.not_eq_true',
        decide_eq_true_eq]
      exact ⟨⟨⟨hd, hc⟩, ha⟩, hr⟩⟩

/-- C4 counterexample: a two-hour-old directory named `old_junk` —
outside the orchestrator's `<repository>_<timestamp>` convention,
since nothing numeric follows its last underscore — IS deleted by the
reclamation pass, refuting the claim that directories outside the
convention are never deleted. -/
theorem cleanup_deletes_outside_convention :
    cleanup_old_temp_directories [dirOldJunk] = [dirOldJunk] ∧
    matchesScratchConvention dirOldJunk.name = false ∧
    matchesScratchConvention "myrepo_1754912345".data = true := by
  decide

/-- C4 witness: the amended theorem applied at a concrete entry. -/
theorem cleanup_deletes_scope_witness :
    dirOldJunk ∈ cleanup_old_temp_directories [dirOldJunk] :=
  (cleanup_deletes_scope [dirOldJunk] dirOldJunk).2.2
    (by decide) (by decide) (by decide) (by decide) (by decide)

/-- C5 counterexample: two backups of the same repository, the second
starting 40 seconds after the first within the same formatted minute,
produce identical storage keys — not strictly increasing under
lexicographic order, refuting the claim as stated over bare start
instants. -/
theorem same_minute_keys_equal :
    tmLt tmA tmB ∧
    producedKey "demo".data tmA tmA = producedKey "demo".data tmB tmB ∧
    lexLtB (producedKey "demo".data tmA tmA) (producedKey "demo".data tmB tmB) = false := by
  decide

/-- C5 witness: the amended monotonicity theorem applied at concrete
instants one minute apart. -/
theorem producedKey_mono_witness :
    lexLtB (producedKey "demo".data tmA tmA) (producedKey "demo".data tmC tmC) = true :=
  producedKey_mono "demo".data tmA tmA tmC tmC
    (by decide) (by decide) (by decide) (by decide) (by decide) (by decide)

/-- C6: for every snapshot with `archived = true`, the handler returns
a skipped outcome and performs no clone, no compression and no upload:
its effect trace is exactly the two audit events logged before and at
the skip, which precedes every storage-affecting step. -/
theorem archived_snapshot_skipped (repo : RepoInfo) (env : BackupEnv) (start up : Tm)
    (h : repo.archived = true) :
    (lambda_handler repo env start up).1.skipped = true ∧
    (lambda_handler repo env start up).1.success = false ∧
    (lambda_handler repo env start up).2 =
      [.auditEvent "started".data, .auditEvent "skipped".data] ∧
    BackupEffect.cloneRepo ∉ (lambda_handler repo env start up).2 ∧
    BackupEffect.compressRepo ∉ (lambda_handler repo env start up).2 ∧
    ∀ k, BackupEffect.uploadObject k ∉ (lambda_handler repo env start up).2 := by
  simp [lambda_handler, h]

/-- C6 witness: a concrete archived snapshot is skipped. -/
theorem archived_snapshot_skipped_witness :
    (lambda_handler repoArchived envAllOk tmA tmA).1.skipped = true :=
  (archived_snapshot_skipped repoArchived envAllOk tmA tmA rfl).1

/-- C7: `archive_single_backup` performs its storage steps in exactly
the order download, cold upload, ArchiveRecord persistence, hot-object
deletion: in every environment the performed trace is a prefix of that
sequence, a successful run performs exactly that sequence, and
whenever the hot object is deleted the ArchiveRecord was already
persisted (so a crash at any point leaves at least one addressable
copy). -/
theorem archive_order_safe (env : ArchiveEnv) :
    (∃ rest, (archive_single_backup env).1 ++ rest =
      [ArchiveStep.downloadHot, ArchiveStep.uploadGlacier,
       ArchiveStep.putMetadata, ArchiveStep.deleteHot]) ∧
    ((archive_single_backup env).2 = true →
      (archive_single_backup env).1 =
        [ArchiveStep.downloadHot, ArchiveStep.uploadGlacier,
         ArchiveStep.putMetadata, ArchiveStep.deleteHot]) ∧
    (ArchiveStep.deleteHot ∈ (archive_single_backup env).1 →
      ArchiveStep.putMetadata ∈
        (archive_single_backup env).1.takeWhile (fun s => s ≠ ArchiveStep.deleteHot)) := by
  obtain ⟨d, u, m, del⟩ := env
  cases d <;> cases u <;> cases m <;> cases del <;>
    simp [archive_single_backup]

/-- C7 witness: the ordering theorem applied at the all-success
environment, discharging the delete-implies-persisted hypothesis. -/
theorem archive_order_safe_witness :
    ArchiveStep.putMetadata ∈
      (archive_single_backup archAllOk).1.takeWhile (fun s => s ≠ ArchiveStep.deleteHot) :=
  (archive_order_safe archAllOk).2.2 (by decide)

/-- C8 (amended): `categorize_error` matches case-insensitive
substrings in a fixed priority order: a message containing
"no space left" always maps to the disk-space category; a message
containing "authentication failed" maps to the authentication category
provided no disk-space pattern also matches; a message matching none
of the known patterns maps to `UNKNOWN`.  (The claim's unconditional
authentication clause is refuted by the counterexample: the disk-space
patterns are checked first.) -/
theorem categorize_error_priority (msg : List Char) :
    (hasSub "no space left".data (lowerStr msg) = true →
      categorize_error msg = "DISK_SPACE".data) ∧
    (hasSub "authentication failed".data (lowerStr msg) = true →
      hasSub "no space left".data (lowerStr msg) = false →
      hasSub "insufficient disk space".data (lowerStr msg) = false →
      categorize_error msg = "AUTHENTICATION".data) ∧
    (hasSub "no space left".data (lowerStr msg) = false →
      hasSub "insufficient disk space".data (lowerStr msg) = false →
      hasSub "authentication failed".data (lowerStr msg) = false →
      hasSub "permission denied".data (lowerStr msg) = false →
      hasSub "repository not found".data (lowerStr msg) = false →
      hasSub "not found".data (lowerStr msg) = false →
      hasSub "timeout".data (lowerStr msg) = false →
      hasSub "timed out".data (lowerStr msg) = false →
      hasSub "network".data (lowerStr msg) = false →
      hasSub "connection".data (lowerStr msg) = false →
      hasSub "dns".data (lowerStr msg) = false →
      hasSub "libpcre2".data (lowerStr msg) = false →
      hasSub "shared libraries".data (lowerStr msg) = false →
      hasSub "no such file or directory".data (lowerStr msg) = false →
      hasSub "memory".data (lowerStr msg) = false →
      hasSub "out of memory".data (lowerStr msg) = false →
      categorize_error msg = "UNKNOWN".data) := by
  refine ⟨?_, ?_, ?_⟩
  · intro h1
    simp [categorize_error, h1]
  · intro h1 h2 h3
    simp [categorize_error, h1, h2, h3]
  · intro h1 h2 h3 h4 h5 h6 h7 h8 h9 h10 h11 h12 h13 h14 h15 h16
    simp [categorize_error, h1, h2, h3, h4, h5, h6, h7, h8, h9, h10,
      h11, h12, h13, h14, h15, h16]

/-- C8 counterexample: a message containing both "no space left" and
"authentication failed" is categorized as disk-space, not
authentication, refuting the claim's unconditional authentication
clause. -/
theorem categorize_error_both_patterns :
    hasSub "authentication failed".data (lowerStr msgBoth.data) = true ∧
    categorize_error msgBoth.data = "DISK_SPACE".data ∧
    categorize_error msgBoth.data ≠ "AUTHENTICATION".data := by
  decide

/-- C8 witness: the amended theorem applied at three concrete
messages, one per clause (including mixed case for the
case-insensitivity of the matching). -/
theorem categorize_error_priority_witness :
    categorize_error "No Space Left on device".data = "DISK_SPACE".data ∧
    categorize_error "remote: Authentication Failed for user".data = "AUTHENTICATION".data ∧
    categorize_error "some baffling situation".data = "UNKNOWN".data :=
  ⟨(categorize_error_priority "No Space Left on device".data).1 (by decide),
   (categorize_error_priority "remote: Authentication Failed for user".data).2.1
     (by decide) (by decide) (by decide),
   (categorize_error_priority "some baffling situation".data).2.2
     (by decide) (by decide) (by decide) (by decide) (by decide) (by decide)
     (by decide) (by decide) (by decide) (by decide) (by decide) (by decide)
     (by decide) (by decide) (by decide) (by decide)⟩

/-- C9: polling a completed download operation returns the cached
record unchanged — the table is not written, the reported item is the
stored one, and a second consecutive poll returns the identical status
and access handle. -/
theorem completed_poll_idempotent (w : S3World) (st : Store) (id : String)
    (item : DownloadRecord) (hid : id ≠ "")
    (hlook : st.lookupId id = some item) (hc : item.status = "completed") :
    get_download_status w st id = (st, 200, some (item, none)) ∧
    get_download_status w (get_download_status w st id).1 id =
      get_download_status w st id := by
  have hcond : ¬(item.download_type = "glacier_retrieval" ∧ item.status = "in_progress") := by
    rw [hc]
    rintro ⟨-, h⟩
    exact absurd h (by decide)
  have h1 : get_download_status w st id = (st, 200, some (item, none)) := by
    unfold get_download_status
    simp [hid, hlook, hcond]
  exact ⟨h1, by rw [h1]; exact h1⟩

/-- C9 witness: the idempotent-poll theorem applied at a concrete
completed operation. -/
theorem completed_poll_idempotent_witness :
    get_download_status wBoom stDone "dl-9" = (stDone, 200, some (recDone, none)) :=
  (completed_poll_idempotent wBoom stDone "dl-9" recDone (by decide) (by decide) rfl).1

/-- C10: pre-clone access validation fails open —
`validate_repository_access` returns false exactly when the clone URL
parses to an owner/repository pair and the API answers 404 or 403; on
any other status, on a malformed clone URL, or on an exception during
the check it returns true and the backup proceeds. -/
theorem validate_access_fails_open (url : List Char) (resp : ApiResp) :
    validate_repository_access url resp = false ↔
      (cloneUrlWellFormed url = true ∧ (resp = .status 404 ∨ resp = .status 403)) := by
  unfold validate_repository_access cloneUrlWellFormed
  by_cases h1 : hasSub "github.com/".data url
  · by_cases h2 : (pySplit "/".data (removeAllSub ".git".data
        ((pySplit "github.com/".data url).getLastD []))).length ≥ 2
    · rcases resp with c | _
      · by_cases hc200 : c = 200
        · simp [h1, h2, hc200]
        · by_cases hc404 : c = 404
          · simp [h1, h2, hc200, hc404]
          · by_cases hc403 : c = 403
            · simp [h1, h2, hc200, hc404, hc403]
            · simp [h1, h2, hc200, hc404, hc403]
      · simp [h1, h2]
    · simp [h1, h2]
      intro hx
      exact absurd hx (by simpa using h2)
  · simp [h1]

/-- C10 witness: the fail-open equivalence applied at a concrete
well-formed URL with a 404 answer. -/
theorem validate_access_fails_open_witness :
    validate_repository_access "https://github.com/acme/widget.git".data (.status 404) = false :=
  (validate_access_fails_open "https://github.com/acme/widget.git".data (.status 404)).mpr
    ⟨by decide, Or.inl rfl⟩
